import Mathlib

/-!
Verification development for the GTFS_Boss repository.

Shallow embedding of three components, translated from the source:
 - the Validation Engine (src/gtfs_boss/core/validator.py, class GTFSValidator);
 - the Report/Metrics Engine (src/gtfs_boss/core/report_generator.py,
   class GTFSReportGenerator), restricted to the health-score and
   service-hours computations;
 - the Real-time Merge Engine (src/gtfs_boss/api/validation.py,
   endpoint get_realtime_vehicles), restricted to trip-deviation
   extraction, merge and on-time metrics.

Modelling conventions:
 - pandas DataFrames become explicit row lists plus column-presence flags,
   and a feed attribute that may be absent, None, a DataFrame, a 2-tuple
   or anything else becomes the inductive Tbl;
 - Python float arithmetic is modelled by exact rationals;
 - a Python value on which int(x) either succeeds or raises becomes the
   inductive JVal; try/except around int() becomes JVal.toInt?;
 - an exception escaping the body of GTFSValidator.validate_feed is
   modelled by an explicit Option String argument carrying str(e)
   (the source catches it and builds the fallback result);
 - Python str of a list of strings is reproduced exactly; Python str of a
   set has unspecified element order, which we model deterministically by
   first-occurrence order (no theorem below inspects those messages).
-/

/-- Kind of a validation issue. The source stores it in the "type" key of
the issue dict; the catch-all issue built in the except branch of
validate_feed carries no "type" key and is the internal_error kind of the
data model. -/
inductive IssueType where
  | missing_file
  | empty_file
  | invalid_file
  | foreign_key
  | coordinates
  | internal_error
deriving DecidableEq

/-- One validation issue: the dicts appended to self.errors. Issues that
the source builds without a "file" key have file = none. -/
structure Issue where
  itype : IssueType
  file : Option String
  message : String
deriving DecidableEq

/-- Result dict of GTFSValidator.validate_feed. -/
structure ValidationResult where
  is_valid : Bool
  errors : List Issue
  warnings : List Issue
deriving DecidableEq

/-- State of one feed attribute as probed by the source: hasattr false
(absent), attribute is None (null), a DataFrame (df), a 2-tuple of
(rows, cols) (tup), or any other shape (other). -/
inductive Tbl (α : Type) where
  | absent
  | null
  | df (d : α)
  | tup (rows cols : Nat)
  | other
deriving DecidableEq

/-- DataFrame of which the validator only observes the row count
(agency.txt, stop_times.txt). -/
structure PlainDF where
  nrows : Nat
deriving DecidableEq

/-- Emptiness of a PlainDF, as pandas DataFrame.empty. -/
def PlainDF.empty (d : PlainDF) : Bool := d.nrows == 0

/-- One row of stops.txt as read by _validate_coordinates; missing
(NaN) coordinates are none. -/
structure StopRow where
  stop_id : String
  stop_lat : Option ℚ
  stop_lon : Option ℚ
deriving DecidableEq

/-- The stops DataFrame: column-presence flags plus rows. -/
structure StopsDF where
  has_stop_lat : Bool
  has_stop_lon : Bool
  has_stop_id : Bool
  rows : List StopRow
deriving DecidableEq

/-- Emptiness of the stops DataFrame. -/
def StopsDF.empty (d : StopsDF) : Bool := d.rows.isEmpty

/-- One row of trips.txt as read by _validate_foreign_keys. The source
reads trips.service_id unconditionally, so the column is part of the row;
route_id values are only read when has_route_id holds. -/
structure TripRow where
  service_id : String
  route_id : String
deriving DecidableEq

/-- The trips DataFrame. -/
structure TripsDF where
  has_route_id : Bool
  rows : List TripRow
deriving DecidableEq

/-- Emptiness of the trips DataFrame. -/
def TripsDF.empty (d : TripsDF) : Bool := d.rows.isEmpty

/-- One row of routes.txt as read by the validator. -/
structure RouteRow where
  route_id : String
deriving DecidableEq

/-- The routes DataFrame. -/
structure RoutesDF where
  has_route_id : Bool
  rows : List RouteRow
deriving DecidableEq

/-- Emptiness of the routes DataFrame. -/
def RoutesDF.empty (d : RoutesDF) : Bool := d.rows.isEmpty

/-- Calendar-like DataFrame (calendar.txt or calendar_dates.txt): each
row contributes its service_id value; when has_service_id is false
the values are never read by the source. -/
structure CalDF where
  has_service_id : Bool
  rows : List String
deriving DecidableEq

/-- Emptiness of a calendar DataFrame. -/
def CalDF.empty (d : CalDF) : Bool := d.rows.isEmpty

/-- The feed attributes consumed by GTFSValidator. -/
structure Feed where
  agency : Tbl PlainDF
  stops : Tbl StopsDF
  routes : Tbl RoutesDF
  trips : Tbl TripsDF
  stop_times : Tbl PlainDF
  calendar : Tbl CalDF
  calendar_dates : Tbl CalDF
deriving DecidableEq

/-- Python str of a list of strings, as produced by
invalid_coords.stop_id.tolist() interpolated into an f-string. -/
def pyStrListRepr (xs : List String) : String :=
  "[" ++ String.intercalate ", " (xs.map (fun s => "\x27" ++ s ++ "\x27")) ++ "]"

/-- Python str of a set of strings. Python set iteration order is
unspecified; we render the first-occurrence order of the deduplicated
list. No theorem depends on this string. -/
def pyStrSetRepr (xs : List String) : String :=
  "\x7b" ++ String.intercalate ", " (xs.map (fun s => "\x27" ++ s ++ "\x27")) ++ "\x7d"

/-- Issues contributed for a single required file by
_validate_required_files: absent attribute, None attribute, empty
DataFrame, 2-tuple with zero first component, or an unexpected shape. -/
def requiredFileIssues (file : String) (t : Tbl α) (emptyOf : α → Bool) : List Issue :=
  match t with
  | .absent =>
      [⟨.missing_file, some file, "Required file " ++ file ++ " is missing"⟩]
  | .null =>
      [⟨.empty_file, some file, "Required file " ++ file ++ " is empty or invalid"⟩]
  | .df d =>
      if emptyOf d then
        [⟨.empty_file, some file, "Required file " ++ file ++ " contains no data"⟩]
      else []
  | .tup r _ =>
      if r == 0 then
        [⟨.empty_file, some file, "Required file " ++ file ++ " contains no data"⟩]
      else []
  | .other =>
      [⟨.invalid_file, some file, "Required file " ++ file ++ " is not a valid DataFrame or tuple"⟩]

/-- GTFSValidator._validate_required_files: all five required files are
checked in order, with no short-circuit. -/
def validate_required_files (f : Feed) : List Issue :=
  requiredFileIssues "agency.txt" f.agency PlainDF.empty
    ++ requiredFileIssues "stops.txt" f.stops StopsDF.empty
    ++ requiredFileIssues "routes.txt" f.routes RoutesDF.empty
    ++ requiredFileIssues "trips.txt" f.trips TripsDF.empty
    ++ requiredFileIssues "stop_times.txt" f.stop_times PlainDF.empty

/-- Guard has_calendar / has_calendar_dates of _validate_foreign_keys:
attribute present, not None, not empty, and service_id among the columns.
A non-DataFrame shape here would raise in the source (covered by the
exception argument of validate_feed) and never satisfies the guard. -/
def hasServiceIds : Tbl CalDF → Bool
  | .df c => !c.rows.isEmpty && c.has_service_id
  | _ => false

/-- The service_id values set(feed.X.service_id) read when the guard
holds (deduplicated, first occurrence kept). -/
def calServiceIds : Tbl CalDF → List String
  | .df c => c.rows.eraseDups
  | _ => []

/-- GTFSValidator._validate_foreign_keys: service_id references of trips
against calendar and calendar_dates, then route_id references of trips
against routes. -/
def validate_foreign_keys (f : Feed) : List Issue :=
  let serviceIssues :=
    match f.trips with
    | .df t =>
      if t.rows.isEmpty then []
      else
        let hasCal := hasServiceIds f.calendar
        let hasCalDates := hasServiceIds f.calendar_dates
        if !hasCal && !hasCalDates then
          [⟨.missing_file, some "calendar.txt/calendar_dates.txt",
            "Both calendar.txt and calendar_dates.txt are missing or invalid, cannot validate service_id references."⟩]
        else
          let validIds :=
            (if hasCal then calServiceIds f.calendar else [])
              ++ (if hasCalDates then calServiceIds f.calendar_dates else [])
          let invalid :=
            ((t.rows.map TripRow.service_id).eraseDups).filter
              (fun s => !validIds.contains s)
          if invalid.isEmpty then []
          else
            [⟨.foreign_key, none,
              "Invalid service_id references in trips.txt: " ++ pyStrSetRepr invalid⟩]
    | _ => []
  let routeIssues :=
    match f.trips, f.routes with
    | .df t, .df r =>
      if !t.rows.isEmpty && !r.rows.isEmpty && t.has_route_id && r.has_route_id then
        let invalid :=
          ((t.rows.map TripRow.route_id).eraseDups).filter
            (fun x => !(r.rows.map RouteRow.route_id).contains x)
        if invalid.isEmpty then []
        else
          [⟨.foreign_key, none,
            "Invalid route_id references in trips.txt: " ++ pyStrSetRepr invalid⟩]
      else []
    | _, _ => []
  serviceIssues ++ routeIssues

/-- Out-of-bounds test of _validate_coordinates on one coordinate pair. -/
def coordOutOfRange (la lo : ℚ) : Bool :=
  decide (la < -90) || decide (la > 90) || decide (lo < -180) || decide (lo > 180)

/-- valid_stops of _validate_coordinates: rows surviving
dropna(subset=[stop_lat, stop_lon]). -/
def droppedNaStops (d : StopsDF) : List (String × ℚ × ℚ) :=
  d.rows.filterMap fun r =>
    match r.stop_lat, r.stop_lon with
    | some la, some lo => some (r.stop_id, la, lo)
    | _, _ => none

/-- invalid_coords of _validate_coordinates: surviving rows whose
coordinates are out of bounds. -/
def coordViolationRows (d : StopsDF) : List (String × ℚ × ℚ) :=
  (droppedNaStops d).filter fun p => coordOutOfRange p.2.1 p.2.2

/-- invalid_coords.stop_id.tolist(). -/
def coordViolations (d : StopsDF) : List String :=
  (coordViolationRows d).map Prod.fst

/-- GTFSValidator._validate_coordinates, as a function of the stops
attribute. A non-DataFrame shape would raise in the source and is covered
by the exception argument of validate_feed. -/
def validate_coordinates (stops : Tbl StopsDF) : List Issue :=
  match stops with
  | .df d =>
    if d.has_stop_lat && d.has_stop_lon && d.has_stop_id && !d.rows.isEmpty then
      if !(droppedNaStops d).isEmpty then
        if !(coordViolationRows d).isEmpty then
          [⟨.coordinates, none,
            "Invalid coordinates found in stops.txt: " ++ pyStrListRepr (coordViolations d)⟩]
        else []
      else []
    else []
  | _ => []

/-- Body of the try block of GTFSValidator.validate_feed: required-file
check, then the conditional checks only when no error was produced, then
the result dict with is_valid = (len(errors) == 0). The engine never
appends to warnings. -/
def validate_feed_body (f : Feed) : ValidationResult :=
  let errs := validate_required_files f
  let allErrs :=
    if errs.isEmpty then errs ++ validate_foreign_keys f ++ validate_coordinates f.stops
    else errs
  { is_valid := allErrs.isEmpty, errors := allErrs, warnings := [] }

/-- GTFSValidator.validate_feed. The second argument models an exception
escaping the try body (exn = some (str e)): the source then returns the
fallback dict with the single catch-all issue. -/
def validate_feed (f : Feed) (exn : Option String) : ValidationResult :=
  match exn with
  | some e =>
      { is_valid := false
        errors := [⟨.internal_error, none, "Failed to validate feed: " ++ e⟩]
        warnings := [] }
  | none => validate_feed_body f

/-!
Report/Metrics Engine (GTFSReportGenerator), restricted to the
health-score and service-hours computations the claims are about.
-/

/-- Completeness deduction of _calculate_health_score: for every value of
the collapsed completeness map below 80, subtract (80 - value) * 0.5.
The collapsed map produced by _calculate_completeness is passed in as the
list of its values. -/
def completenessPenalty (comps : List ℚ) : ℚ :=
  (comps.map fun c => if c < 80 then (80 - c) * (1 / 2) else 0).sum

/-- GTFSReportGenerator._calculate_health_score: an invalid result scores
0 immediately; otherwise 100 minus 10 per error, minus 5 per warning,
minus the completeness penalty, clamped to [0, 100] by max(0, min(100, score)). -/
def calculate_health_score (vr : ValidationResult) (comps : List ℚ) : ℚ :=
  if vr.is_valid = false then 0
  else
    max 0 (min 100
      (100 - (vr.errors.length : ℚ) * 10 - (vr.warnings.length : ℚ) * 5
        - completenessPenalty comps))

/-- State of the stop_times attribute as probed by
_calculate_service_hours (gtfs_kit feeds hold a DataFrame or None). -/
inductive PTbl where
  | absent
  | null
  | df (nrows : Nat)
deriving DecidableEq

/-- Return dict of _calculate_service_hours. -/
structure SvcHours where
  earliest_service : String
  latest_service : String
  service_hours : ℚ
deriving DecidableEq

/-- The explicit zero-span default dict. -/
def zeroSvcHours : SvcHours := ⟨"00:00:00", "00:00:00", 0⟩

/-- Result of the external gtfs_kit calls inside the try block of
_calculate_service_hours: the earliest and latest time strings and their
conversions to seconds past midnight. -/
structure StartEndTimes where
  earliest_str : String
  latest_str : String
  earliest_seconds : Int
  latest_seconds : Int
deriving DecidableEq

/-- GTFSReportGenerator._calculate_service_hours. The ext argument is the
outcome of the external gtfs_kit calls; none models an exception raised
inside the try block, answered by the except branch with the default. -/
def calculate_service_hours (stop_times : PTbl) (ext : Option StartEndTimes) : SvcHours :=
  match stop_times with
  | .absent => zeroSvcHours
  | .null => zeroSvcHours
  | .df n =>
    if n == 0 then zeroSvcHours
    else
      match ext with
      | none => zeroSvcHours
      | some t =>
        let total : Int :=
          if t.latest_seconds < t.earliest_seconds then
            (24 * 3600 - t.earliest_seconds) + t.latest_seconds
          else t.latest_seconds - t.earliest_seconds
        ⟨t.earliest_str, t.latest_str, (total : ℚ) / 3600⟩

/-!
Real-time Merge Engine (get_realtime_vehicles), restricted to
trip-deviation extraction, the deviation merge and the on-time metrics.
-/

/-- A JSON value handed to int(x): either the conversion succeeds with n,
or it raises ValueError/TypeError. -/
inductive JVal where
  | num (n : Int)
  | bad
deriving DecidableEq

/-- try: int(x) ... except (ValueError, TypeError). -/
def JVal.toInt? : JVal → Option Int
  | .num n => some n
  | .bad => none

/-- An arrival or departure dict of a stop-time update; the delay key may
be absent. -/
structure RTEvent where
  delay : Option JVal
deriving DecidableEq

/-- One entry of the stopTimeUpdate list of a trip update. Every key may
be absent. -/
structure StopTimeUpdate where
  stopSequence : Option Int
  scheduleDeviation : Option JVal
  arrival : Option RTEvent
  departure : Option RTEvent
deriving DecidableEq

/-- The trip dict of a trip update. -/
structure TripDesc where
  tripId : Option String
deriving DecidableEq

/-- A tripUpdate message. -/
structure TripUpdateMsg where
  trip : Option TripDesc
  stopTimeUpdate : Option (List StopTimeUpdate)
deriving DecidableEq

/-- One entity of the trip-updates document; entities without a
tripUpdate key are skipped. -/
structure TUEntity where
  tripUpdate : Option TripUpdateMsg
deriving DecidableEq

/-- sorted(trip_update[stopTimeUpdate], key=lambda x: x.get(stopSequence, 0)).
Python sorted is a stable sort; insertionSort is stable as well. -/
def sortedStopTimeUpdates (stus : List StopTimeUpdate) : List StopTimeUpdate :=
  stus.insertionSort fun a b => a.stopSequence.getD 0 ≤ b.stopSequence.getD 0

/-- The backward scan loop over the (already reversed) sorted stop-time
updates: first branch tries an explicit scheduleDeviation key, the second
a delay nested in arrival, the third a delay nested in departure; a
conversion failure in the taken branch moves to the next entry. -/
def scanDeviation : List StopTimeUpdate → Option Int
  | [] => none
  | stu :: rest =>
    match stu.scheduleDeviation with
    | some v =>
      match v.toInt? with
      | some n => some n
      | none => scanDeviation rest
    | none =>
      match Option.bind stu.arrival RTEvent.delay with
      | some v =>
        match v.toInt? with
        | some n => some n
        | none => scanDeviation rest
      | none =>
        match Option.bind stu.departure RTEvent.delay with
        | some v =>
          match v.toInt? with
          | some n => some n
          | none => scanDeviation rest
        | none => scanDeviation rest

/-- Deviation extracted from one tripUpdate message: none when the
stopTimeUpdate key is absent, else the backward scan over the sorted
stop-time updates. -/
def extract_trip_deviation (tu : TripUpdateMsg) : Option Int :=
  match tu.stopTimeUpdate with
  | some stus => scanDeviation (sortedStopTimeUpdates stus).reverse
  | none => none

/-- The (trip_id, deviation) pair one entity contributes to the
trip-deviation index, if any: requires a tripUpdate key, a tripId and a
usable deviation. -/
def entity_deviation (e : TUEntity) : Option (String × Int) :=
  match e.tripUpdate with
  | none => none
  | some tu =>
    match Option.bind tu.trip TripDesc.tripId, extract_trip_deviation tu with
    | some tid, some d => some (tid, d)
    | _, _ => none

/-- Python dict assignment trip_deviations[trip_id] = deviation on an
association list: replaces the value in place when the key exists,
appends otherwise. -/
def updateAssoc : List (String × Int) → String → Int → List (String × Int)
  | [], k, v => [(k, v)]
  | (k0, v0) :: rest, k, v =>
    if k0 = k then (k0, v) :: rest else (k0, v0) :: updateAssoc rest k v

/-- The extraction loop over the trip-update entities, threading the
trip_deviations dict. -/
def extract_trip_deviations_from : List TUEntity → List (String × Int) → List (String × Int)
  | [], acc => acc
  | e :: rest, acc =>
    match entity_deviation e with
    | some (tid, d) => extract_trip_deviations_from rest (updateAssoc acc tid d)
    | none => extract_trip_deviations_from rest acc

/-- The trip-deviation index built from the trip-updates document. -/
def extract_trip_deviations (entities : List TUEntity) : List (String × Int) :=
  extract_trip_deviations_from entities []

/-- A vehicle that survived the position/tripId filter, reduced to the
field the merge reads. -/
structure MergedVehicleTrip where
  tripId : String
deriving DecidableEq

/-- Deviations attached during the merge loop: for every vehicle whose
tripId is a key of the index, its deviation, in vehicle order (the
deviated subset used for the metrics). -/
def mergedDeviations (vehicles : List MergedVehicleTrip) (devIndex : List (String × Int)) : List Int :=
  vehicles.filterMap fun v => List.lookup v.tripId devIndex

/-- Lower bound of the on-time window, seconds. -/
def ON_TIME_EARLY_THRESHOLD : Int := -60

/-- Upper bound of the on-time window, seconds. -/
def ON_TIME_LATE_THRESHOLD : Int := 300

/-- deviation >= ON_TIME_EARLY_THRESHOLD and deviation <= ON_TIME_LATE_THRESHOLD. -/
def isOnTimeDev (d : Int) : Bool :=
  decide (ON_TIME_EARLY_THRESHOLD ≤ d) && decide (d ≤ ON_TIME_LATE_THRESHOLD)

/-- deviation < ON_TIME_EARLY_THRESHOLD. -/
def isEarlyDev (d : Int) : Bool := decide (d < ON_TIME_EARLY_THRESHOLD)

/-- deviation > ON_TIME_LATE_THRESHOLD. -/
def isLateDev (d : Int) : Bool := decide (ON_TIME_LATE_THRESHOLD < d)

/-- Python round(x, 2) on the idealized rational value. On exact halves
of a hundredth Python rounds the nearest binary float half to even; every
value a claim inspects is tie-free, where the conventions agree. -/
def round2 (q : ℚ) : ℚ := ((round (q * 100) : ℤ) : ℚ) / 100

/-- The realtime_metrics dict. -/
structure RealtimeMetrics where
  total_vehicles_reporting_deviation : Nat
  on_time_vehicles : Nat
  on_time_percentage : ℚ
  early_vehicles_count : Nat
  late_vehicles_count : Nat
  average_early_deviation_seconds : ℚ
  average_late_deviation_seconds : ℚ
  average_overall_deviation_seconds : ℚ
deriving DecidableEq

/-- On-time metrics over the deviations of the deviated subset. The
source accumulates counts in the merge loop and recomputes the early and
late value lists afterwards; both walks classify with the same
thresholds, so a single pass over the deviation list is equivalent. -/
def computeRealtimeMetrics (devs : List Int) : RealtimeMetrics :=
  let total := devs.length
  let onTime := (devs.filter isOnTimeDev).length
  let earlyDevs := devs.filter isEarlyDev
  let lateDevs := devs.filter isLateDev
  let onTimePct : ℚ := if 0 < total then (onTime : ℚ) / (total : ℚ) * 100 else 0
  let avgEarly : ℚ :=
    if earlyDevs.isEmpty then 0
    else (((earlyDevs.map fun d => |d|).sum : Int) : ℚ) / (earlyDevs.length : ℚ)
  let avgLate : ℚ :=
    if lateDevs.isEmpty then 0 else ((lateDevs.sum : Int) : ℚ) / (lateDevs.length : ℚ)
  let avgOverall : ℚ :=
    if 0 < total then ((devs.sum : Int) : ℚ) / (total : ℚ) else 0
  { total_vehicles_reporting_deviation := total
    on_time_vehicles := onTime
    on_time_percentage := round2 onTimePct
    early_vehicles_count := earlyDevs.length
    late_vehicles_count := lateDevs.length
    average_early_deviation_seconds := round2 avgEarly
    average_late_deviation_seconds := round2 avgLate
    average_overall_deviation_seconds := round2 avgOverall }

/-!
Definitions written from the words of the specification, for comparison
with the source translation (claims C1 and C2).
-/

/-- Modelled from the spec, for claim C2: the value a single stop-time
update exposes, with precedence explicit scheduleDeviation field, else
arrival.delay, else departure.delay. -/
def stuExposedValue (stu : StopTimeUpdate) : Option JVal :=
  match stu.scheduleDeviation with
  | some v => some v
  | none =>
    match Option.bind stu.arrival RTEvent.delay with
    | some v => some v
    | none => Option.bind stu.departure RTEvent.delay

/-- Modelled from the spec, for claim C2: sort the stop-time updates by
stop sequence ascending, scan from the last (highest-sequence) entry
backward, and take the first entry whose exposed value survives integer
conversion; a value that fails conversion is discarded and the scan
continues with the next, earlier entry. -/
def extractDeviationSpec (stus : List StopTimeUpdate) : Option Int :=
  (sortedStopTimeUpdates stus).reverse.findSome? fun stu =>
    (stuExposedValue stu).bind JVal.toInt?

/-- Modelled from the spec as amended for claim C1: the deviation the
index records for tripId t is the one supplied by the last entity in
document order that supplies one for t. -/
def lastDevFor (t : String) : List TUEntity → Option Int
  | [] => none
  | e :: rest =>
    match lastDevFor t rest with
    | some d => some d
    | none =>
      match entity_deviation e with
      | some (tid, d) => if tid = t then some d else none
      | none => none

/-!
Helper lemmas.
-/

theorem scanDeviation_eq_findSome (l : List StopTimeUpdate) :
    scanDeviation l = l.findSome? (fun stu => (stuExposedValue stu).bind JVal.toInt?) := by
  induction l with
  | nil => rfl
  | cons stu rest ih =>
    rw [List.findSome?]
    cases h1 : stu.scheduleDeviation with
    | some v =>
      cases v <;> simp [scanDeviation, stuExposedValue, h1, JVal.toInt?, ih]
    | none =>
      cases h2 : Option.bind stu.arrival RTEvent.delay with
      | some v => cases v <;> simp [scanDeviation, stuExposedValue, h1, h2, JVal.toInt?, ih]
      | none =>
        cases h3 : Option.bind stu.departure RTEvent.delay with
        | some v => cases v <;> simp [scanDeviation, stuExposedValue, h1, h2, h3, JVal.toInt?, ih]
        | none => simp [scanDeviation, stuExposedValue, h1, h2, h3, ih]

theorem lookup_updateAssoc (m : List (String × Int)) (k k2 : String) (v : Int) :
    List.lookup k (updateAssoc m k2 v) = if k = k2 then some v else List.lookup k m := by
  induction m with
  | nil =>
    cases hbeq : (k == k2) with
    | true =>
      have h : k = k2 := by simpa using hbeq
      simp [updateAssoc, List.lookup, hbeq, h]
    | false =>
      have h : ¬k = k2 := by simpa using hbeq
      simp [updateAssoc, List.lookup, hbeq, h]
  | cons p rest ih =>
    obtain ⟨k0, v0⟩ := p
    by_cases h0 : k0 = k2
    · subst h0
      cases hbeq : (k == k0) with
      | true =>
        have h : k = k0 := by simpa using hbeq
        simp [updateAssoc, List.lookup, hbeq, h]
      | false =>
        have h : ¬k = k0 := by simpa using hbeq
        simp [updateAssoc, List.lookup, hbeq, h]
    · cases hbeq : (k == k0) with
      | true =>
        have h : k = k0 := by simpa using hbeq
        subst h
        simp [updateAssoc, h0, List.lookup, hbeq]
      | false =>
        have h : ¬k = k0 := by simpa using hbeq
        simp [updateAssoc, h0, List.lookup, hbeq, ih]

theorem lookup_extract_from (entities : List TUEntity) :
    ∀ (m : List (String × Int)) (t : String),
      List.lookup t (extract_trip_deviations_from entities m) =
        match lastDevFor t entities with
        | some d => some d
        | none => List.lookup t m := by
  induction entities with
  | nil => intro m t; rfl
  | cons e rest ih =>
    intro m t
    cases hd : entity_deviation e with
    | some p =>
      obtain ⟨tid, d⟩ := p
      rw [show extract_trip_deviations_from (e :: rest) m
            = extract_trip_deviations_from rest (updateAssoc m tid d) by
          simp [extract_trip_deviations_from, hd]]
      rw [ih]
      cases hrest : lastDevFor t rest with
      | some d0 => simp [lastDevFor, hrest]
      | none =>
        rw [lookup_updateAssoc]
        by_cases ht : t = tid
        · subst ht; simp [lastDevFor, hrest, hd]
        · simp [lastDevFor, hrest, hd, ht, Ne.symm ht]
    | none =>
      rw [show extract_trip_deviations_from (e :: rest) m
            = extract_trip_deviations_from rest m by
          simp [extract_trip_deviations_from, hd]]
      rw [ih]
      cases hrest : lastDevFor t rest <;> simp [lastDevFor, hrest, hd]

/-!
Claim theorems.
-/

/-- Concrete trip-update entity for claim C1: one stop-time update whose
scheduleDeviation converts to n, for trip "T1". -/
def c1Entity (n : Int) : TUEntity :=
  ⟨some ⟨some ⟨some "T1"⟩, some [⟨some 1, some (.num n), none, none⟩]⟩⟩

/-- Claim C1, counterexample: two trip-update entities both supply a
usable deviation for tripId "T1" (100 from the first, 200 from the
second, in document order); the index records 200, the one from the
LAST entity, not 100 from the first as the claim states. -/
theorem c1_counterexample :
    entity_deviation (c1Entity 100) = some ("T1", 100)
    ∧ entity_deviation (c1Entity 200) = some ("T1", 200)
    ∧ List.lookup "T1" (extract_trip_deviations [c1Entity 100, c1Entity 200]) ≠ some 100
    ∧ List.lookup "T1" (extract_trip_deviations [c1Entity 100, c1Entity 200]) = some 200 := by
  refine ⟨rfl, rfl, ?_, rfl⟩
  decide

/-- Claim C1 as amended: for every trip-update document, the deviation
the trip-deviation index records for a tripId is the one supplied by the
last trip-update entity in document order that supplies a usable
deviation for that tripId (later entities overwrite earlier ones). -/
theorem c1_last_entity_wins :
    ∀ (entities : List TUEntity) (t : String),
      List.lookup t (extract_trip_deviations entities) = lastDevFor t entities := by
  intro entities t
  rw [extract_trip_deviations, lookup_extract_from]
  cases lastDevFor t entities <;> simp [List.lookup]

/-- Claim C2: the per-entity deviation extraction of the source (sort by
stop sequence ascending, scan the reversed order with the branch chain
scheduleDeviation, elif arrival delay, elif departure delay, retrying the
next earlier entry after a conversion failure) computes exactly the
spec-side description extractDeviationSpec: first entry of the backward
scan whose exposed value (precedence scheduleDeviation, else
arrival.delay, else departure.delay) survives integer conversion; in
particular a present but unparsable scheduleDeviation skips the whole
entry without trying arrival or departure of the same entry. -/
theorem c2_deviation_extraction_refines_spec :
    ∀ tu : TripUpdateMsg,
      extract_trip_deviation tu = Option.bind tu.stopTimeUpdate extractDeviationSpec := by
  intro tu
  cases h : tu.stopTimeUpdate with
  | none => simp [extract_trip_deviation, h]
  | some stus =>
    simp [extract_trip_deviation, h, extractDeviationSpec, scanDeviation_eq_findSome]

/-- Claim C4: whenever an uncaught failure (modelled by the exception
argument) occurs during validation, validate_feed returns is_valid false,
an empty warnings sequence, and exactly one internal_error issue whose
message carries the failure description. -/
theorem c4_uncaught_failure_result :
    ∀ (f : Feed) (e : String),
      validate_feed f (some e) =
        { is_valid := false
          errors := [⟨IssueType.internal_error, none, "Failed to validate feed: " ++ e⟩]
          warnings := [] } :=
  fun _ _ => rfl

/-- Claim C6: every result returned by validate_feed satisfies
is_valid = true exactly when the errors sequence is empty. -/
theorem c6_is_valid_iff_no_errors :
    ∀ (f : Feed) (exn : Option String),
      ((validate_feed f exn).is_valid = true ↔ (validate_feed f exn).errors = []) := by
  intro f exn
  cases exn with
  | some e => simp [validate_feed]
  | none =>
    simp only [validate_feed, validate_feed_body]
    exact List.isEmpty_iff

theorem clamp_mono {a b : ℚ} (h : a ≤ b) :
    max 0 (min 100 a) ≤ max 0 (min 100 b) :=
  max_le_max le_rfl (min_le_min le_rfl h)

/-- Claim C3: the health score is 0 exactly as computed for an invalid
result, equals the clamped deduction formula for a valid one, always lies
in [0, 100], and is monotonically non-increasing in the number of errors
and in the number of warnings. -/
theorem c3_health_score_properties :
    ∀ (vr vr2 : ValidationResult) (comps : List ℚ),
      (0 ≤ calculate_health_score vr comps ∧ calculate_health_score vr comps ≤ 100)
      ∧ (vr.is_valid = false → calculate_health_score vr comps = 0)
      ∧ (vr.is_valid = true →
          calculate_health_score vr comps =
            max 0 (min 100
              (100 - (vr.errors.length : ℚ) * 10 - (vr.warnings.length : ℚ) * 5
                - completenessPenalty comps)))
      ∧ (vr.is_valid = vr2.is_valid → vr.warnings.length = vr2.warnings.length →
          vr.errors.length ≤ vr2.errors.length →
          calculate_health_score vr2 comps ≤ calculate_health_score vr comps)
      ∧ (vr.is_valid = vr2.is_valid → vr.errors.length = vr2.errors.length →
          vr.warnings.length ≤ vr2.warnings.length →
          calculate_health_score vr2 comps ≤ calculate_health_score vr comps) := by
  intro vr vr2 comps
  refine ⟨⟨?_, ?_⟩, ?_, ?_, ?_, ?_⟩
  · unfold calculate_health_score
    split
    · norm_num
    · exact le_max_left _ _
  · unfold calculate_health_score
    split
    · norm_num
    · exact max_le (by norm_num) (min_le_left _ _)
  · intro hv; simp [calculate_health_score, hv]
  · intro hv; simp [calculate_health_score, hv]
  · intro hv hw he
    unfold calculate_health_score
    cases h1 : vr.is_valid with
    | false => rw [← hv, h1]; simp
    | true =>
      rw [← hv, h1]
      simp only [Bool.true_eq_false, if_false]
      refine clamp_mono ?_
      have he2 : (vr.errors.length : ℚ) ≤ (vr2.errors.length : ℚ) := by exact_mod_cast he
      rw [hw]
      have hw2 : (vr2.warnings.length : ℚ) = (vr2.warnings.length : ℚ) := rfl
      nlinarith [he2]
  · intro hv he hw
    unfold calculate_health_score
    cases h1 : vr.is_valid with
    | false => rw [← hv, h1]; simp
    | true =>
      rw [← hv, h1]
      simp only [Bool.true_eq_false, if_false]
      refine clamp_mono ?_
      have hw2 : (vr.warnings.length : ℚ) ≤ (vr2.warnings.length : ℚ) := by exact_mod_cast hw
      rw [he]
      nlinarith [hw2]

/-- Concrete inputs for the C3 witness. -/
def c3vrA : ValidationResult := ⟨true, [], []⟩

/-- Valid result with one more error than c3vrA. -/
def c3vrB : ValidationResult := ⟨true, [⟨.internal_error, none, "e"⟩], []⟩

/-- Invalid result. -/
def c3vrC : ValidationResult := ⟨false, [⟨.internal_error, none, "e"⟩], []⟩

/-- Valid result with one more warning than c3vrA. -/
def c3vrD : ValidationResult := ⟨true, [], [⟨.internal_error, none, "w"⟩]⟩

/-- Completeness values used by the C3 witness. -/
def c3comps : List ℚ := [60]

/-- Witness for claim C3 at concrete inputs. -/
theorem c3_health_score_properties_witness :
    (0 ≤ calculate_health_score c3vrA c3comps)
    ∧ (calculate_health_score c3vrA c3comps ≤ 100)
    ∧ (calculate_health_score c3vrC c3comps = 0)
    ∧ (calculate_health_score c3vrA c3comps =
        max 0 (min 100
          (100 - (c3vrA.errors.length : ℚ) * 10 - (c3vrA.warnings.length : ℚ) * 5
            - completenessPenalty c3comps)))
    ∧ (calculate_health_score c3vrB c3comps ≤ calculate_health_score c3vrA c3comps)
    ∧ (calculate_health_score c3vrD c3comps ≤ calculate_health_score c3vrA c3comps) := by
  have hAB := c3_health_score_properties c3vrA c3vrB c3comps
  have hAD := c3_health_score_properties c3vrA c3vrD c3comps
  have hC := c3_health_score_properties c3vrC c3vrC c3comps
  exact ⟨hAB.1.1, hAB.1.2, hC.2.1 rfl, hAB.2.2.1 rfl,
    hAB.2.2.2.1 rfl rfl (by decide), hAD.2.2.2.2 rfl rfl (by decide)⟩

/-- Claim C10: under the validator invariant (is_valid exactly when no
errors), the 10-per-error deduction never contributes: an invalid result
scores 0 before any deduction, and a valid result has zero errors, so its
score is the clamp of 100 minus 5 per warning minus the completeness
penalties. -/
theorem c10_valid_score_ignores_error_deduction :
    ∀ (vr : ValidationResult) (comps : List ℚ),
      (vr.is_valid = true ↔ vr.errors = []) →
      calculate_health_score vr comps =
        (if vr.is_valid then
          max 0 (min 100 (100 - (vr.warnings.length : ℚ) * 5 - completenessPenalty comps))
        else 0) := by
  intro vr comps hinv
  unfold calculate_health_score
  cases hv : vr.is_valid with
  | false => simp
  | true =>
    have he : vr.errors = [] := hinv.1 hv
    simp [he]

/-- Concrete input for the C10 witness. -/
def c10vr : ValidationResult := ⟨true, [], [⟨.internal_error, none, "w"⟩]⟩

/-- Witness for claim C10 at a concrete valid result with one warning. -/
theorem c10_valid_score_ignores_error_deduction_witness :
    calculate_health_score c10vr c3comps =
      (if c10vr.is_valid then
        max 0 (min 100 (100 - (c10vr.warnings.length : ℚ) * 5 - completenessPenalty c3comps))
      else 0) :=
  c10_valid_score_ignores_error_deduction c10vr c3comps (by decide)

/-- Claim C9: with the earliest and latest scheduled times in seconds
past midnight, the computed span is (86400 - earliest) + latest when the
latest precedes the earliest and latest - earliest otherwise, the
reported service hours are the span divided by 3600, and an absent, None
or empty stop_times table yields the zero-span default instead of an
error. -/
theorem c9_service_hours_span :
    (∀ (n : Nat) (t : StartEndTimes), 0 < n →
      (t.latest_seconds < t.earliest_seconds →
        calculate_service_hours (.df n) (some t) =
          ⟨t.earliest_str, t.latest_str,
            (((86400 - t.earliest_seconds) + t.latest_seconds : Int) : ℚ) / 3600⟩)
      ∧ (t.earliest_seconds ≤ t.latest_seconds →
        calculate_service_hours (.df n) (some t) =
          ⟨t.earliest_str, t.latest_str,
            ((t.latest_seconds - t.earliest_seconds : Int) : ℚ) / 3600⟩))
    ∧ (∀ ext, calculate_service_hours .absent ext = zeroSvcHours
        ∧ calculate_service_hours .null ext = zeroSvcHours
        ∧ calculate_service_hours (.df 0) ext = zeroSvcHours) := by
  constructor
  · intro n t hn
    have hn0 : (n == 0) = false := by
      simp [Nat.pos_iff_ne_zero.mp hn]
    constructor
    · intro hlt
      simp only [calculate_service_hours, hn0, Bool.false_eq_true, if_false, if_pos hlt]
      have : ((24 : Int) * 3600 - t.earliest_seconds) + t.latest_seconds
          = (86400 - t.earliest_seconds) + t.latest_seconds := by norm_num
      rw [this]
    · intro hle
      simp only [calculate_service_hours, hn0, Bool.false_eq_true, if_false,
        if_neg (not_lt.mpr hle)]
  · intro ext
    exact ⟨rfl, rfl, rfl⟩

/-- Witness for claim C9: a same-day span and a span crossing midnight. -/
theorem c9_service_hours_span_witness :
    calculate_service_hours (.df 5) (some ⟨"08:00:00", "23:30:00", 28800, 84600⟩) =
      ⟨"08:00:00", "23:30:00", ((84600 - 28800 : Int) : ℚ) / 3600⟩
    ∧ calculate_service_hours (.df 5) (some ⟨"23:00:00", "01:00:00", 82800, 3600⟩) =
      ⟨"23:00:00", "01:00:00", (((86400 - 82800) + 3600 : Int) : ℚ) / 3600⟩ :=
  ⟨(c9_service_hours_span.1 5 ⟨"08:00:00", "23:30:00", 28800, 84600⟩ (by decide)).2 (by decide),
   (c9_service_hours_span.1 5 ⟨"23:00:00", "01:00:00", 82800, 3600⟩ (by decide)).1 (by decide)⟩

/-- Vehicles for the C7 example. -/
def c7Vehicles : List MergedVehicleTrip := [⟨"T1"⟩, ⟨"T2"⟩, ⟨"T3"⟩, ⟨"T4"⟩]

/-- Trip-deviation index for the C7 example. -/
def c7Index : List (String × Int) := [("T1", -200), ("T2", -70), ("T3", 50), ("T4", 400)]

theorem round2_intCast (n : ℤ) : round2 ((n : ℚ)) = (n : ℚ) := by
  rw [round2]
  have h : ((n : ℚ) * 100) = ((n * 100 : ℤ) : ℚ) := by push_cast; ring
  rw [h, round_intCast]
  push_cast
  field_simp

theorem round2_ofNat_pieces :
    round2 (25 : ℚ) = 25 ∧ round2 (135 : ℚ) = 135 ∧ round2 (400 : ℚ) = 400
    ∧ round2 (45 : ℚ) = 45 ∧ round2 (0 : ℚ) = 0 := by
  refine ⟨?_, ?_, ?_, ?_, ?_⟩
  · rw [show (25 : ℚ) = ((25 : ℤ) : ℚ) by norm_num, round2_intCast]
  · rw [show (135 : ℚ) = ((135 : ℤ) : ℚ) by norm_num, round2_intCast]
  · rw [show (400 : ℚ) = ((400 : ℤ) : ℚ) by norm_num, round2_intCast]
  · rw [show (45 : ℚ) = ((45 : ℤ) : ℚ) by norm_num, round2_intCast]
  · rw [show (0 : ℚ) = ((0 : ℤ) : ℚ) by norm_num, round2_intCast]

theorem computeRealtimeMetrics_example :
    computeRealtimeMetrics [-200, -70, 50, 400] = ⟨4, 1, 25, 2, 1, 135, 400, 45⟩ := by
  obtain ⟨h25, h135, h400, h45, h0⟩ := round2_ofNat_pieces
  norm_num [computeRealtimeMetrics, isEarlyDev, isLateDev, isOnTimeDev,
    ON_TIME_EARLY_THRESHOLD, ON_TIME_LATE_THRESHOLD, List.filter,
    RealtimeMetrics.mk.injEq, h25, h135, h400, h45]

theorem computeRealtimeMetrics_empty :
    computeRealtimeMetrics [] = ⟨0, 0, 0, 0, 0, 0, 0, 0⟩ := by
  obtain ⟨h25, h135, h400, h45, h0⟩ := round2_ofNat_pieces
  norm_num [computeRealtimeMetrics, RealtimeMetrics.mk.injEq, h0]

/-- Claim C7: a deviated vehicle is on-time exactly when its deviation
lies in [-60, 300] inclusive, early below -60, late above 300; for the
deviated subset with deviations [-200, -70, 50, 400] the metrics report
2 early, 1 late, 1 on-time, average early deviation 135 (mean of
absolute early deviations), average late deviation 400, on-time
percentage 25 (rounded to 2 decimals); an empty deviated subset yields 0
for every percentage and average. -/
theorem c7_on_time_metrics :
    (∀ d : Int, isOnTimeDev d = true ↔ (-60 ≤ d ∧ d ≤ 300))
    ∧ (∀ d : Int, isEarlyDev d = true ↔ d < -60)
    ∧ (∀ d : Int, isLateDev d = true ↔ 300 < d)
    ∧ mergedDeviations c7Vehicles c7Index = [-200, -70, 50, 400]
    ∧ (computeRealtimeMetrics [-200, -70, 50, 400]).early_vehicles_count = 2
    ∧ (computeRealtimeMetrics [-200, -70, 50, 400]).late_vehicles_count = 1
    ∧ (computeRealtimeMetrics [-200, -70, 50, 400]).on_time_vehicles = 1
    ∧ (computeRealtimeMetrics [-200, -70, 50, 400]).average_early_deviation_seconds = 135
    ∧ (computeRealtimeMetrics [-200, -70, 50, 400]).average_late_deviation_seconds = 400
    ∧ (computeRealtimeMetrics [-200, -70, 50, 400]).on_time_percentage = 25
    ∧ computeRealtimeMetrics [] = ⟨0, 0, 0, 0, 0, 0, 0, 0⟩ := by
  refine ⟨?_, ?_, ?_, by decide, ?_, ?_, ?_, ?_, ?_, ?_,
    computeRealtimeMetrics_empty⟩
  · intro d
    simp [isOnTimeDev, ON_TIME_EARLY_THRESHOLD, ON_TIME_LATE_THRESHOLD]
  · intro d
    simp [isEarlyDev, ON_TIME_EARLY_THRESHOLD]
  · intro d
    simp [isLateDev, ON_TIME_LATE_THRESHOLD]
  all_goals rw [computeRealtimeMetrics_example]

/-- Predicate for counting missing_file/empty_file issues attached to a
given required file name. -/
def isMissingOrEmptyIssueFor (name : String) (i : Issue) : Bool :=
  decide (i.file = some name
    ∧ (i.itype = IssueType.missing_file ∨ i.itype = IssueType.empty_file))

/-- Number of missing_file/empty_file issues for a given file name. -/
def countMissingOrEmptyFor (name : String) (errs : List Issue) : Nat :=
  errs.countP (isMissingOrEmptyIssueFor name)

/-- Whether a required table is missing or empty in the sense of
_validate_required_files: attribute absent, None, an empty DataFrame, or
a 2-tuple with zero rows. -/
def tblMissingOrEmpty (t : Tbl α) (emptyOf : α → Bool) : Bool :=
  match t with
  | .absent => true
  | .null => true
  | .df d => emptyOf d
  | .tup r _ => r == 0
  | .other => false

/-- At least one of the five required tables is missing or empty. -/
def reqAnyMissingOrEmpty (f : Feed) : Bool :=
  tblMissingOrEmpty f.agency PlainDF.empty
    || tblMissingOrEmpty f.stops StopsDF.empty
    || tblMissingOrEmpty f.routes RoutesDF.empty
    || tblMissingOrEmpty f.trips TripsDF.empty
    || tblMissingOrEmpty f.stop_times PlainDF.empty

theorem countMissingOrEmptyFor_append (name : String) (l1 l2 : List Issue) :
    countMissingOrEmptyFor name (l1 ++ l2) =
      countMissingOrEmptyFor name l1 + countMissingOrEmptyFor name l2 :=
  List.countP_append _ _ _

theorem countMissingOrEmptyFor_requiredFileIssues (name file : String) (t : Tbl α)
    (emptyOf : α → Bool) :
    countMissingOrEmptyFor name (requiredFileIssues file t emptyOf) =
      if file = name ∧ tblMissingOrEmpty t emptyOf then 1 else 0 := by
  by_cases hfn : file = name
  · cases t with
    | absent =>
        simp [countMissingOrEmptyFor, requiredFileIssues, isMissingOrEmptyIssueFor,
          tblMissingOrEmpty, hfn, List.countP_cons]
    | null =>
        simp [countMissingOrEmptyFor, requiredFileIssues, isMissingOrEmptyIssueFor,
          tblMissingOrEmpty, hfn, List.countP_cons]
    | df d =>
        by_cases hd : emptyOf d = true <;>
          simp [countMissingOrEmptyFor, requiredFileIssues, isMissingOrEmptyIssueFor,
            tblMissingOrEmpty, hfn, hd, List.countP_cons]
    | tup r c =>
        by_cases hr : r = 0 <;>
          simp [countMissingOrEmptyFor, requiredFileIssues, isMissingOrEmptyIssueFor,
            tblMissingOrEmpty, hfn, hr, List.countP_cons]
    | other =>
        simp [countMissingOrEmptyFor, requiredFileIssues, isMissingOrEmptyIssueFor,
          tblMissingOrEmpty, hfn, List.countP_cons]
  · cases t with
    | absent =>
        simp [countMissingOrEmptyFor, requiredFileIssues, isMissingOrEmptyIssueFor, hfn,
          List.countP_cons]
    | null =>
        simp [countMissingOrEmptyFor, requiredFileIssues, isMissingOrEmptyIssueFor, hfn,
          List.countP_cons]
    | df d =>
        by_cases hd : emptyOf d = true <;>
          simp [countMissingOrEmptyFor, requiredFileIssues, isMissingOrEmptyIssueFor, hfn, hd,
            List.countP_cons]
    | tup r c =>
        by_cases hr : r = 0 <;>
          simp [countMissingOrEmptyFor, requiredFileIssues, isMissingOrEmptyIssueFor, hfn, hr,
            List.countP_cons]
    | other =>
        simp [countMissingOrEmptyFor, requiredFileIssues, isMissingOrEmptyIssueFor, hfn,
          List.countP_cons]

theorem requiredFileIssues_ne_nil (file : String) (t : Tbl α) (emptyOf : α → Bool)
    (h : tblMissingOrEmpty t emptyOf = true) : requiredFileIssues file t emptyOf ≠ [] := by
  cases t <;> simp_all [tblMissingOrEmpty, requiredFileIssues]

theorem validate_required_files_ne_nil (f : Feed) (h : reqAnyMissingOrEmpty f = true) :
    validate_required_files f ≠ [] := by
  intro hcontra
  rw [validate_required_files] at hcontra
  simp only [List.append_eq_nil] at hcontra
  obtain ⟨⟨⟨⟨h1, h2⟩, h3⟩, h4⟩, h5⟩ := hcontra
  simp only [reqAnyMissingOrEmpty, Bool.or_eq_true] at h
  rcases h with ((((ha | hb) | hc) | hd) | he)
  · exact requiredFileIssues_ne_nil "agency.txt" f.agency PlainDF.empty ha h1
  · exact requiredFileIssues_ne_nil "stops.txt" f.stops StopsDF.empty hb h2
  · exact requiredFileIssues_ne_nil "routes.txt" f.routes RoutesDF.empty hc h3
  · exact requiredFileIssues_ne_nil "trips.txt" f.trips TripsDF.empty hd h4
  · exact requiredFileIssues_ne_nil "stop_times.txt" f.stop_times PlainDF.empty he h5

/-- Claim C5: when one or more of the five required tables is missing or
empty, validate_feed returns is_valid false, its errors are exactly the
required-file issues (the referential-integrity and coordinate checks
contribute nothing), and for each of the five required files there is
exactly one missing_file/empty_file issue when that table is missing or
empty, and none otherwise (all five tables are always checked). -/
theorem c5_required_files_exhaustive :
    ∀ f : Feed, reqAnyMissingOrEmpty f = true →
      (validate_feed f none).is_valid = false
      ∧ (validate_feed f none).errors = validate_required_files f
      ∧ countMissingOrEmptyFor "agency.txt" (validate_feed f none).errors
          = (if tblMissingOrEmpty f.agency PlainDF.empty then 1 else 0)
      ∧ countMissingOrEmptyFor "stops.txt" (validate_feed f none).errors
          = (if tblMissingOrEmpty f.stops StopsDF.empty then 1 else 0)
      ∧ countMissingOrEmptyFor "routes.txt" (validate_feed f none).errors
          = (if tblMissingOrEmpty f.routes RoutesDF.empty then 1 else 0)
      ∧ countMissingOrEmptyFor "trips.txt" (validate_feed f none).errors
          = (if tblMissingOrEmpty f.trips TripsDF.empty then 1 else 0)
      ∧ countMissingOrEmptyFor "stop_times.txt" (validate_feed f none).errors
          = (if tblMissingOrEmpty f.stop_times PlainDF.empty then 1 else 0) := by
  intro f h
  have hne := validate_required_files_ne_nil f h
  have hempty : (validate_required_files f).isEmpty = false := by
    cases hv : (validate_required_files f).isEmpty with
    | false => rfl
    | true => exact absurd (List.isEmpty_iff.mp hv) hne
  have hbody : validate_feed f none = ⟨false, validate_required_files f, []⟩ := by
    simp [validate_feed, validate_feed_body, hempty]
  rw [hbody]
  refine ⟨rfl, rfl, ?_, ?_, ?_, ?_, ?_⟩ <;>
    simp [validate_required_files, countMissingOrEmptyFor_append,
      countMissingOrEmptyFor_requiredFileIssues]

/-- Concrete feed for the C5 witness: stops.txt absent, trips.txt
present but empty, everything else well-formed. -/
def c5feedW : Feed :=
  { agency := .df ⟨1⟩
    stops := .absent
    routes := .df ⟨true, [⟨"R1"⟩]⟩
    trips := .df ⟨true, []⟩
    stop_times := .df ⟨1⟩
    calendar := .df ⟨true, ["SVC1"]⟩
    calendar_dates := .absent }

/-- Witness for claim C5 at a concrete feed with one missing and one
empty required table. -/
theorem c5_required_files_exhaustive_witness :
    (validate_feed c5feedW none).is_valid = false
    ∧ (validate_feed c5feedW none).errors = validate_required_files c5feedW
    ∧ countMissingOrEmptyFor "agency.txt" (validate_feed c5feedW none).errors
        = (if tblMissingOrEmpty c5feedW.agency PlainDF.empty then 1 else 0)
    ∧ countMissingOrEmptyFor "stops.txt" (validate_feed c5feedW none).errors
        = (if tblMissingOrEmpty c5feedW.stops StopsDF.empty then 1 else 0)
    ∧ countMissingOrEmptyFor "routes.txt" (validate_feed c5feedW none).errors
        = (if tblMissingOrEmpty c5feedW.routes RoutesDF.empty then 1 else 0)
    ∧ countMissingOrEmptyFor "trips.txt" (validate_feed c5feedW none).errors
        = (if tblMissingOrEmpty c5feedW.trips TripsDF.empty then 1 else 0)
    ∧ countMissingOrEmptyFor "stop_times.txt" (validate_feed c5feedW none).errors
        = (if tblMissingOrEmpty c5feedW.stop_times PlainDF.empty then 1 else 0) :=
  c5_required_files_exhaustive c5feedW (by decide)

/-- Concrete feed for claim C8: otherwise valid, with stop S2 at
latitude 95 (out of range). -/
def c8feed : Feed :=
  { agency := .df ⟨1⟩
    stops := .df ⟨true, true, true,
      [⟨"S1", some 33, some (-112)⟩, ⟨"S2", some 95, some (-112)⟩]⟩
    routes := .df ⟨true, [⟨"R1"⟩]⟩
    trips := .df ⟨true, [⟨"SVC1", "R1"⟩]⟩
    stop_times := .df ⟨1⟩
    calendar := .df ⟨true, ["SVC1"]⟩
    calendar_dates := .absent }

/-- Claim C8: stops whose present coordinates lie within [-90, 90] and
[-180, 180] (boundaries included) produce no issue; any nonempty set of
violating stops yields exactly one coordinates issue listing the
offending stop ids; and for the otherwise-valid feed with one stop at
latitude 95, validate_feed yields exactly that one coordinates issue
listing that stop. -/
theorem c8_coordinate_bounds :
    (∀ d : StopsDF,
      (∀ r ∈ d.rows, ∀ la lo, r.stop_lat = some la → r.stop_lon = some lo →
        -90 ≤ la ∧ la ≤ 90 ∧ -180 ≤ lo ∧ lo ≤ 180) →
      validate_coordinates (.df d) = [])
    ∧ (∀ d : StopsDF, d.has_stop_lat = true → d.has_stop_lon = true →
        d.has_stop_id = true → coordViolations d ≠ [] →
        validate_coordinates (.df d) =
          [⟨.coordinates, none,
            "Invalid coordinates found in stops.txt: " ++ pyStrListRepr (coordViolations d)⟩])
    ∧ validate_feed c8feed none =
        ⟨false,
          [⟨.coordinates, none,
            "Invalid coordinates found in stops.txt: " ++ pyStrListRepr ["S2"]⟩], []⟩ := by
  refine ⟨?_, ?_, by decide⟩
  · intro d hin
    have hviol : coordViolationRows d = [] := by
      rw [coordViolationRows, List.filter_eq_nil_iff]
      intro p hp
      obtain ⟨r, hr, hfr⟩ := List.mem_filterMap.mp hp
      cases hla : r.stop_lat with
      | none => rw [hla] at hfr; simp at hfr
      | some la =>
        cases hlo : r.stop_lon with
        | none => rw [hla, hlo] at hfr; simp at hfr
        | some lo =>
          rw [hla, hlo] at hfr
          simp only [Option.some.injEq] at hfr
          obtain ⟨hb1, hb2, hb3, hb4⟩ := hin r hr la lo hla hlo
          have hfalse : coordOutOfRange la lo = false := by
            simp only [coordOutOfRange, Bool.or_eq_false_iff, decide_eq_false_iff_not]
            exact ⟨⟨⟨not_lt.mpr hb1, not_lt.mpr hb2⟩, not_lt.mpr hb3⟩, not_lt.mpr hb4⟩
          rw [← hfr]
          simp [hfalse]
    simp [validate_coordinates, hviol]
  · intro d h1 h2 h3 hv
    have hvr : coordViolationRows d ≠ [] := by
      intro hh
      exact hv (by simp [coordViolations, hh])
    have hvrb : (coordViolationRows d).isEmpty = false := by
      cases hh : (coordViolationRows d).isEmpty with
      | false => rfl
      | true => exact absurd (List.isEmpty_iff.mp hh) hvr
    have hdrb : (droppedNaStops d).isEmpty = false := by
      cases hh : (droppedNaStops d).isEmpty with
      | false => rfl
      | true =>
        exact absurd (by simp [coordViolationRows, List.isEmpty_iff.mp hh]) hvr
    have hrowsb : d.rows.isEmpty = false := by
      cases hh : d.rows.isEmpty with
      | false => rfl
      | true =>
        exact absurd
          (by simp [coordViolationRows, droppedNaStops, List.isEmpty_iff.mp hh]) hvr
    simp [validate_coordinates, h1, h2, h3, hrowsb, hdrb, hvrb]

/-- StopsDF with only in-range stops, including both boundary corners
and a row with a missing latitude, for the C8 witness. -/
def c8goodStops : StopsDF :=
  ⟨true, true, true,
    [⟨"B1", some 90, some 180⟩, ⟨"B2", some (-90), some (-180)⟩, ⟨"B3", none, some 200⟩]⟩

/-- StopsDF with one out-of-range stop for the C8 witness. -/
def c8badStops : StopsDF :=
  ⟨true, true, true, [⟨"S1", some 33, some (-112)⟩, ⟨"S2", some 95, some (-112)⟩]⟩

/-- Witness for claim C8: boundary coordinates produce no issue; a
violating stop produces exactly one coordinates issue. -/
theorem c8_coordinate_bounds_witness :
    validate_coordinates (.df c8goodStops) = []
    ∧ validate_coordinates (.df c8badStops) =
        [⟨.coordinates, none,
          "Invalid coordinates found in stops.txt: " ++ pyStrListRepr (coordViolations c8badStops)⟩] :=
  ⟨c8_coordinate_bounds.1 c8goodStops (by
      intro r hr la lo hla hlo
      fin_cases hr <;> simp_all [c8goodStops] <;> constructor <;> linarith),
   c8_coordinate_bounds.2.1 c8badStops rfl rfl rfl (by decide)⟩
